import Mathlib

/-!
Verification of `jaxtyping/_decorator.py` against its specification.

The development shallowly embeds the decorator module in Lean:

* the thread-local scope stack `storage.memo_stack` (line 38 and lines
  124-133 of the source) becomes an explicit `List MemoCtx` threaded
  through a small-step evaluator `runComp` for wrapped-call programs;
* the decoration-time dispatch of `jaxtyped` (lines 88-136) becomes a
  pure function `jaxtyped` over a Python-object model `PyVal` and an
  explicit mutable-world record `JaxState`;
* the dataclass field loop `_check_dataclass_annotations` (lines
  140-182) becomes `checkDataclassFields`;
* the monkey-patched initialiser produced by `_jaxtyped_typechecker`
  (lines 205-234) becomes `typecheckerWrapper` (decoration-time shape)
  and `runInit` (call-time behaviour, including the late-binding
  outermost-call guard of line 230).

All state is per-thread in the source (`storage = threading.local()`),
so each model describes the state owned by one thread; thread isolation
holds by construction in the source and is not further modelled.
-/

/-- One binding context, the triple `({}, {}, {})` pushed by `wrapped_fn`
(line 129 of the source): an axis-binding map plus two auxiliary
memoisation maps reserved for the external shape checker.  Maps are
association lists. -/
structure MemoCtx where
  axes : List (String × Nat)
  aux1 : List (String × Nat)
  aux2 : List (String × Nat)
deriving DecidableEq

/-- The fresh empty triple `({}, {}, {})` of line 129. -/
def MemoCtx.empty : MemoCtx := { axes := [], aux1 := [], aux2 := [] }

/-- `memo_stack.append(({}, {}, {}))` (line 129).  The stack is modelled
with the most recent context first; a Python list used purely as a stack
(append then pop at the same end) is LIFO either way. -/
def pushContext (s : List MemoCtx) : List MemoCtx :=
  MemoCtx.empty :: s

/-- `memo_stack.pop()` (line 133).  Under the wrapper the stack is never
empty at a pop; totality on `[]` is inessential padding. -/
def popContext (s : List MemoCtx) : List MemoCtx :=
  s.tail

/-- External checks consult and mutate only the top context of the
stack (`storage.memo_stack[-1]` in the wider library). -/
def writeTop (f : MemoCtx → MemoCtx) : List MemoCtx → List MemoCtx
  | [] => []
  | c :: rest => f c :: rest

/-- Programs that can run inside (or around) `jaxtyped`-wrapped calls:
pure returns, raised errors, successful axis-binding writes performed by
the external shape checker, sequencing, and invocation of a wrapped
callable.  `wrapped` is the only constructor that touches the stack
shape, exactly as in the source. -/
inductive Comp where
  | pure (v : Nat)
  | raise (e : Nat)
  | bindAxis (name : String) (size : Nat)
  | seq (c1 c2 : Comp)
  | wrapped (body : Comp)

/-- Evaluator for `Comp` over one thread's scope stack.  The `wrapped`
case is the body of `wrapped_fn` (lines 124-133): push the fresh empty
triple, run the body, and pop in a `finally` block, i.e. on the normal
and the exceptional path alike, passing the body's outcome through
untouched. -/
def runComp : Comp → List MemoCtx → Except Nat Nat × List MemoCtx
  | Comp.pure v, s => (Except.ok v, s)
  | Comp.raise e, s => (Except.error e, s)
  | Comp.bindAxis name size, s =>
      (Except.ok 0, writeTop (fun c => { c with axes := (name, size) :: c.axes }) s)
  | Comp.seq c1 c2, s =>
      match runComp c1 s with
      | (Except.ok _, s1) => runComp c2 s1
      | (Except.error e, s1) => (Except.error e, s1)
  | Comp.wrapped body, s =>
      let r := runComp body (pushContext s)
      (r.1, popContext r.2)

/-- Argument of a `type[...]` annotation, as seen through `get_args`
(line 159): either a string literal or some other object. -/
inductive AnnArg where
  | strArg (s : String)
  | otherArg (tag : Nat)
deriving DecidableEq

/-- A resolved field annotation, as the field loop of
`_check_dataclass_annotations` discriminates it: a plain string
(line 151), an annotation whose `get_origin` is `type` together with its
`get_args` list (lines 158-159), or any other annotation (opaque). -/
inductive Ann where
  | strA (s : String)
  | typeApp (args : List AnnArg)
  | other (tag : Nat)
deriving DecidableEq

/-- `isinstance(annotation, str)` (line 151). -/
def isStrAnn : Ann → Bool
  | Ann.strA _ => true
  | _ => false

/-- `get_origin(annotation) is type and len(args) == 1 and
isinstance(args[0], str)` (lines 158-160). -/
def isTypeSingleStr : Ann → Bool
  | Ann.typeApp [AnnArg.strArg _] => true
  | _ => false

/-- `kls.__annotations__[field.name]` lookup within one class of the
MRO (lines 143-144); association-list lookup. -/
def lookupAnn : List (String × Ann) → String → Option Ann
  | [], _ => none
  | (k, a) :: rest, name => if k = name then some a else lookupAnn rest name

/-- The `for kls in self.__class__.__mro__ ... else: raise TypeError`
walk (lines 142-150): first class in method-resolution order declaring
an annotation for the field wins; `none` models falling off the MRO. -/
def resolveAnn : List (List (String × Ann)) → String → Option Ann
  | [], _ => none
  | klsAnns :: rest, name =>
      match lookupAnn klsAnns name with
      | some a => some a
      | none => resolveAnn rest name

/-- `getattr(self, field.name)` (line 167); `none` models the
`AttributeError` of an uninitialised field. -/
def lookupVal : List (String × Nat) → String → Option Nat
  | [], _ => none
  | (k, v) :: rest, name => if k = name then some v else lookupVal rest name

/-- The view of `self` that `_check_dataclass_annotations` consumes:
`dataclasses.fields(self)` (field names in declaration order), the
`__annotations__` of each class of `self.__class__.__mro__`, and the
instance attribute dictionary. -/
structure DcInstance where
  fields : List String
  mro : List (List (String × Ann))
  values : List (String × Nat)
deriving DecidableEq

/-- One invocation of the supplied typechecker capability: the synthetic
single-parameter check `def typecheck({field.name}: annotation)` applied
to the field's current value (lines 171-182). -/
abbrev CheckCall := String × Ann × Nat

/-- Failures of the field loop: the `raise TypeError` of line 150 when
no class in the MRO declares the annotation, and a rejection raised by
the supplied typechecker. -/
inductive DcError where
  | resolutionError
  | typeMismatch (name : String) (a : Ann) (v : Nat)
deriving DecidableEq

/-- The body of the `for field in dataclasses.fields(self)` loop of
`_check_dataclass_annotations` (lines 141-182), processing the listed
field names in order.  `tc` is the supplied typechecker capability
(`true` = the synthetic check passes).  On success, returns the list of
typechecker invocations made, in order. -/
def checkFields (tc : String → Ann → Nat → Bool) (self : DcInstance) :
    List String → Except DcError (List CheckCall)
  | [] => Except.ok []
  | name :: rest =>
      match resolveAnn self.mro name with
      | none => Except.error DcError.resolutionError
      | some ann =>
          if isStrAnn ann then
            checkFields tc self rest
          else if isTypeSingleStr ann then
            checkFields tc self rest
          else
            match lookupVal self.values name with
            | none => checkFields tc self rest
            | some v =>
                if tc name ann v then
                  match checkFields tc self rest with
                  | Except.ok calls => Except.ok ((name, ann, v) :: calls)
                  | Except.error e => Except.error e
                else
                  Except.error (DcError.typeMismatch name ann v)

/-- `_check_dataclass_annotations(self, typechecker)` (lines 140-182):
run the field loop over all declared fields of the instance.  (The
`@jaxtyped` wrapping of this function affects scoping only and is
modelled by `runComp`/`Comp.wrapped`.) -/
def checkDataclassFields (tc : String → Ann → Nat → Bool) (self : DcInstance) :
    Except DcError (List CheckCall) :=
  checkFields tc self self.fields

/-- Identity of an `__init__` function object of a class `k`: either the
function bound before `_jaxtyped_typechecker`'s patch (`orig k`), or the
fresh closure `__init__` created by `_wrapper` for `k` (line 216).
Each patch of a distinct class creates a distinct function object, so
value equality of `InitRef` models Python `is` identity. -/
inductive InitRef where
  | orig (k : Nat)
  | patched (k : Nat)
deriving DecidableEq

/-- Call-time view of one class for the initialiser semantics:
its base class, whether its original initialiser delegates to
`super().__init__` first, `dataclasses.fields` of its instances (all
fields, inherited ones included), the `init` captured by the patched
closure (line 213), and the function currently bound as the class's
`__init__` attribute (looked up late, line 230). -/
structure ClsInfo where
  parentId : Option Nat
  delegates : Bool
  fieldNames : List String
  capturedInit : InitRef
  curInit : InitRef
deriving DecidableEq

/-- A table of classes, indexed by class id. -/
abbrev ClsTable := Nat → ClsInfo

/-- The dataclass branch of `_wrapper` (lines 213-233) for class `k`:
capture `init = kls.__init__`, then rebind `kls.__init__` to the fresh
patched closure. -/
def patchInit (t : ClsTable) (k : Nat) : ClsTable :=
  fun j =>
    if j = k then
      { t k with capturedInit := (t k).curInit, curInit := InitRef.patched k }
    else t j

/-- Observable events during one construction: an original initialiser
body assigning class `k`'s own fields, one field-verification pass of
`_check_dataclass_annotations` over the listed fields, or a stuck
marker (fuel exhausted / missing base class — unreachable in the
scenarios proved about). -/
inductive IEvent where
  | setFields (k : Nat)
  | verify (fields : List String)
  | stuck
deriving DecidableEq

/-- Call-time semantics of an initialiser function, for an object whose
`self.__class__` is `selfClass`.  The `orig k` case runs class `k`'s
original initialiser: optionally `super().__init__` first — which looks
up the base class's *current* `__init__`, late-bound, exactly as Python
does — then assigns `k`'s own fields.  The `patched k` case is the
closure of lines 216-231: run the captured `init`, then verify only if
`self.__class__.__init__ is kls.__init__` (line 230), where both sides
are the currently bound initialisers, looked up at check time. -/
def runInit (t : ClsTable) (selfClass : Nat) : Nat → InitRef → List IEvent
  | 0, _ => [IEvent.stuck]
  | fuel + 1, InitRef.orig k =>
      (if (t k).delegates then
        match (t k).parentId with
        | some p => runInit t selfClass fuel ((t p).curInit)
        | none => [IEvent.stuck]
      else []) ++ [IEvent.setFields k]
  | fuel + 1, InitRef.patched k =>
      runInit t selfClass fuel ((t k).capturedInit) ++
        (if (t selfClass).curInit = (t k).curInit then
          [IEvent.verify (t selfClass).fieldNames]
        else [])

/-- Constructing an instance of class `c`: Python's `type.__call__`
invokes `c`'s currently bound `__init__` on a fresh object whose
`__class__` is `c`. -/
def constructInstance (t : ClsTable) (fuel : Nat) (c : Nat) : List IEvent :=
  runInit t c fuel ((t c).curInit)

/-- The two-class inheritance scenario of the specification: class `a`
with fields `fa` and a non-delegating original initialiser, and class
`b` extending `a` with extra fields `fb`, whose original initialiser
calls `super().__init__` first.  `dataclasses.fields` for `b` instances
covers the whole chain, `fa ++ fb`. -/
def baseTable (a b : Nat) (fa fb : List String) : ClsTable :=
  fun j =>
    if j = a then
      { parentId := none, delegates := false, fieldNames := fa,
        capturedInit := InitRef.orig a, curInit := InitRef.orig a }
    else if j = b then
      { parentId := some a, delegates := true, fieldNames := fa ++ fb,
        capturedInit := InitRef.orig b, curInit := InitRef.orig b }
    else
      { parentId := none, delegates := false, fieldNames := [],
        capturedInit := InitRef.orig j, curInit := InitRef.orig j }

/-- What a function object is, for the decoration model: an opaque
original function (`plain`), the push/pop closure `wrapped_fn` produced
by `jaxtyped` around an original function (lines 123-133), or the
verifying `__init__` closure produced by `_wrapper` for class `kls`
around the captured `init` (lines 215-231). -/
inductive FnDesc where
  | plain (tag : Nat)
  | wrappedFn (orig : Nat)
  | verifierInit (kls : Nat) (captured : Nat)
deriving DecidableEq

/-- Decoration-time view of one class object: whether
`dataclasses.is_dataclass` holds, the function currently bound as its
`__init__`, and its remaining attribute dictionary (opaque). -/
structure ClsRec where
  isDataclass : Bool
  initFn : Nat
  attrs : List (String × Nat)
deriving DecidableEq

/-- A Python object as `jaxtyped`'s dispatch discriminates it (lines
88-121): a plain function, a class, a `classmethod` or `staticmethod`
(whose `__func__` is a plain function, named by id), or a `property`
whose optional accessors are plain functions, named by id. -/
inductive PyVal where
  | func (id : Nat)
  | cls (id : Nat)
  | classm (fid : Nat)
  | staticm (fid : Nat)
  | prop (fget fset fdel : Option Nat)
deriving DecidableEq

/-- The error raised by `jaxtyped` on a plain class (lines 96-98). -/
inductive PyErr where
  | valueError
deriving DecidableEq

/-- The mutable world one thread sees: the `_jaxtyped_fns` registry
(line 41, a weak identity set of wrapped functions), the function and
class object heaps, a supply of fresh object ids, and the thread's
`storage.memo_stack` (line 38) — included so that decoration-time
operations can be seen to leave it untouched. -/
structure JaxState where
  jaxtypedFns : List Nat
  fnTable : Nat → FnDesc
  classTable : Nat → ClsRec
  nextId : Nat
  memoStack : List MemoCtx

/-- `jaxtyped` applied to a function object `id`: the idempotence guard
`type(fn) is types.FunctionType and fn in _jaxtyped_fns` (lines 88-89)
returns it unchanged; otherwise the final `else` branch (lines 121-136)
allocates the fresh closure `wrapped_fn`, registers it in
`_jaxtyped_fns`, and returns it. -/
def wrapFunc (st : JaxState) (id : Nat) : Nat × JaxState :=
  if id ∈ st.jaxtypedFns then
    (id, st)
  else
    (st.nextId,
      { st with
        fnTable := fun j => if j = st.nextId then FnDesc.wrappedFn id else st.fnTable j,
        jaxtypedFns := st.nextId :: st.jaxtypedFns,
        nextId := st.nextId + 1 })

/-- `jaxtyped` applied to an optional property accessor (lines 107-120):
absent accessors stay absent, present ones are wrapped. -/
def wrapOpt (st : JaxState) : Option Nat → Option Nat × JaxState
  | none => (none, st)
  | some fid =>
      let r := wrapFunc st fid
      (some r.1, r.2)

/-- The dispatch of `jaxtyped` (lines 88-136).  A dataclass has its
`__init__` replaced in place by `jaxtyped(fn.__init__)` and the same
class object is returned (lines 91-94); any other class raises
`ValueError` (lines 96-98); `classmethod` / `staticmethod` / `property`
envelopes are rebuilt around wrapped constituents (lines 103-120);
a function goes through `wrapFunc`. -/
def jaxtyped (st : JaxState) : PyVal → Except PyErr PyVal × JaxState
  | PyVal.func id =>
      let r := wrapFunc st id
      (Except.ok (PyVal.func r.1), r.2)
  | PyVal.cls id =>
      if (st.classTable id).isDataclass then
        let r := wrapFunc st (st.classTable id).initFn
        (Except.ok (PyVal.cls id),
          { r.2 with
            classTable := fun j =>
              if j = id then { r.2.classTable j with initFn := r.1 }
              else r.2.classTable j })
      else
        (Except.error PyErr.valueError, st)
  | PyVal.classm fid =>
      let r := wrapFunc st fid
      (Except.ok (PyVal.classm r.1), r.2)
  | PyVal.staticm fid =>
      let r := wrapFunc st fid
      (Except.ok (PyVal.staticm r.1), r.2)
  | PyVal.prop fget fset fdel =>
      let rg := wrapOpt st fget
      let rs := wrapOpt rg.2 fset
      let rd := wrapOpt rs.2 fdel
      (Except.ok (PyVal.prop rg.1 rs.1 rd.1), rd.2)

/-- The decorator `_wrapper` returned by `_jaxtyped_typechecker`
(lines 205-234): on a dataclass, capture `init = kls.__init__`,
allocate the fresh verifying `__init__` closure, and rebind
`kls.__init__` to it, returning the same class; on any other class,
return the class unchanged.  (The choice of typechecker, including the
`None` pass-through of lines 202-203, parameterises only the eventual
field checks, modelled by `checkDataclassFields`.) -/
def typecheckerWrapper (st : JaxState) (c : Nat) : Nat × JaxState :=
  if (st.classTable c).isDataclass then
    (c,
      { st with
        fnTable := fun j =>
          if j = st.nextId then FnDesc.verifierInit c (st.classTable c).initFn
          else st.fnTable j,
        classTable := fun j =>
          if j = c then { st.classTable j with initFn := st.nextId }
          else st.classTable j,
        nextId := st.nextId + 1 })
  else
    (c, st)

/-- Observable events of invoking a function object once, at the top
level: context push and pop by a `wrapped_fn` closure, the original
body running, a field-verification pass for class `kls` by a verifying
`__init__` closure (whose outermost call runs its guard true; the
delegation guard itself is modelled by `runInit`), or fuel exhaustion. -/
inductive CEvent where
  | push
  | pop
  | body (tag : Nat)
  | verify (kls : Nat)
  | fuelOut
deriving DecidableEq

/-- Trace of one top-level invocation of function object `id` under the
function heap `ft`. -/
def callEvents (ft : Nat → FnDesc) : Nat → Nat → List CEvent
  | 0, _ => [CEvent.fuelOut]
  | fuel + 1, id =>
      match ft id with
      | FnDesc.plain tag => [CEvent.body tag]
      | FnDesc.wrappedFn orig => CEvent.push :: (callEvents ft fuel orig ++ [CEvent.pop])
      | FnDesc.verifierInit kls captured => callEvents ft fuel captured ++ [CEvent.verify kls]

/-- A concrete world with one plain class (class ids all map to a
non-dataclass record). -/
def st0 : JaxState :=
  { jaxtypedFns := []
    fnTable := fun _ => FnDesc.plain 0
    classTable := fun _ => { isDataclass := false, initFn := 0, attrs := [] }
    nextId := 1
    memoStack := [] }

/-- A concrete world with one dataclass: every class id maps to a
dataclass record whose `__init__` is function 0 (`plain 7`) and which
carries one further attribute. -/
def st1 : JaxState :=
  { jaxtypedFns := []
    fnTable := fun _ => FnDesc.plain 7
    classTable := fun _ => { isDataclass := true, initFn := 0, attrs := [("doc", 3)] }
    nextId := 5
    memoStack := [] }

/-- A concrete fully initialised dataclass instance exercising every
branch of the field loop: a string annotation, a `type[...]` annotation
with one string argument, an ordinary annotation, a `type[...]`
annotation with two string arguments, and an annotation found further
down the MRO. -/
def dcSample : DcInstance :=
  { fields := ["a", "b", "c", "d", "e"]
    mro :=
      [[("a", Ann.strA "X"), ("b", Ann.typeApp [AnnArg.strArg "Y"]),
        ("c", Ann.other 3), ("d", Ann.typeApp [AnnArg.strArg "Y", AnnArg.strArg "Z"])],
       [("e", Ann.other 9)]]
    values := [("a", 1), ("b", 2), ("c", 3), ("d", 4), ("e", 5)] }

/-- A concrete partially initialised dataclass instance: field `"c"`
has an ordinary annotation but no value bound. -/
def dcSample2 : DcInstance :=
  { fields := ["c", "d"]
    mro := [[("c", Ann.other 3), ("d", Ann.other 4)]]
    values := [("d", 4)] }

theorem runComp_tail_eq (c : Comp) : ∀ s : List MemoCtx, ((runComp c s).2).tail = s.tail := by
  induction c with
  | pure v => intro s; rfl
  | raise e => intro s; rfl
  | bindAxis name size => intro s; cases s <;> rfl
  | seq c1 c2 ih1 ih2 =>
      intro s
      have h1 := ih1 s
      simp only [runComp]
      cases hr : runComp c1 s with
      | mk r1 s1 =>
          rw [hr] at h1
          cases r1 with
          | ok v => simpa using (ih2 s1).trans h1
          | error e => simpa using h1
  | wrapped body ih =>
      intro s
      have h := ih (pushContext s)
      simp only [runComp, popContext]
      rw [h]
      rfl

theorem wrapped_stack_eq (body : Comp) (s : List MemoCtx) :
    (runComp (Comp.wrapped body) s).2 = s := by
  have h := runComp_tail_eq body (pushContext s)
  simp only [runComp, popContext]
  exact h

/-- Claim C1: every invocation of a `jaxtyped`-wrapped plain callable
pushes the fresh empty triple of three empty mappings onto the thread's
scope stack before the wrapped body runs and pops it on every exit path
(the body's outcome, normal or raised, is whatever `runComp body`
produces), so for every body — in particular any sequence of nested
wrapped calls — the stack depth after the outermost call returns equals
its depth before it began. -/
theorem wrapped_call_balanced (body : Comp) (s : List MemoCtx) :
    runComp (Comp.wrapped body) s =
      ((runComp body (MemoCtx.empty :: s)).1,
        popContext (runComp body (MemoCtx.empty :: s)).2) ∧
    ((runComp (Comp.wrapped body) s).2).length = s.length := by
  refine ⟨rfl, ?_⟩
  rw [wrapped_stack_eq]

/-- Claim C5: a wrapped call is observationally transparent — its
outcome is exactly the outcome of running the body: a normal return
value passes through unchanged, and a raised error propagates unchanged
(the `finally` clause never catches or suppresses it). -/
theorem wrapped_call_transparent (body : Comp) (s : List MemoCtx) :
    (∀ v : Nat, (runComp (Comp.wrapped body) s).1 = Except.ok v ↔
      (runComp body (pushContext s)).1 = Except.ok v) ∧
    (∀ e : Nat, (runComp (Comp.wrapped body) s).1 = Except.error e ↔
      (runComp body (pushContext s)).1 = Except.error e) :=
  ⟨fun _ => Iff.rfl, fun _ => Iff.rfl⟩

/-- Claim C6: a fully nested inner wrapped call leaves the entire
surrounding stack — including every axis-name binding written into the
outer call's context — exactly as it was: the inner call runs on its
own fresh empty context layered on top (`pushContext`), and after it
returns the stack is unchanged. -/
theorem inner_wrapped_call_preserves_outer (body : Comp) (s : List MemoCtx) :
    (runComp (Comp.wrapped body) s).2 = s ∧ pushContext s = MemoCtx.empty :: s :=
  ⟨wrapped_stack_eq body s, rfl⟩

/-- Claim C3: with both classes of the two-class scenario patched by the
record-type decorator, constructing an instance of the subclass `b`
(whose original initialiser delegates to the parent `a`'s patched
initialiser) triggers exactly one field-verification pass, at the
outermost completion, covering all fields `fa ++ fb`; and the nested
(delegated) initialiser call performs no verification at all, because
its guard compares the object's dynamically resolved `__init__`
(`b`'s patched closure) with the decorated class `a`'s own `__init__`
(`a`'s patched closure) and they differ. -/
theorem dataclass_verify_once (n a b : Nat) (fa fb : List String) (hab : a ≠ b) :
    constructInstance (patchInit (patchInit (baseTable a b fa fb) a) b) (n + 4) b
      = [IEvent.setFields a, IEvent.setFields b, IEvent.verify (fa ++ fb)] ∧
    runInit (patchInit (patchInit (baseTable a b fa fb) a) b) b (n + 2)
      (((patchInit (patchInit (baseTable a b fa fb) a) b) a).curInit)
      = [IEvent.setFields a] := by
  have hba : ¬ (b = a) := fun e => hab e.symm
  have hab2 : ¬ (a = b) := hab
  set t := patchInit (patchInit (baseTable a b fa fb) a) b with ht
  have hta : t a =
      { parentId := none, delegates := false, fieldNames := fa,
        capturedInit := InitRef.orig a, curInit := InitRef.patched a } := by
    rw [ht]
    simp [patchInit, baseTable, hab2, hba]
  have htb : t b =
      { parentId := some a, delegates := true, fieldNames := fa ++ fb,
        capturedInit := InitRef.orig b, curInit := InitRef.patched b } := by
    rw [ht]
    simp [patchInit, baseTable, hab2, hba]
  have h2 : runInit t b (n + 2) (InitRef.patched a) = [IEvent.setFields a] := by
    show runInit t b ((n + 1) + 1) (InitRef.patched a) = [IEvent.setFields a]
    simp only [runInit, hta, htb]
    simp [hba]
  have h2x : runInit t b (n + 2) ((t a).curInit) = [IEvent.setFields a] := by
    rw [hta]
    exact h2
  refine ⟨?_, h2x⟩
  show runInit t b (((n + 2) + 1) + 1) ((t b).curInit) = _
  simp only [runInit, hta, htb]
  simp [hba, h2]

theorem dataclass_verify_once_witness :
    constructInstance (patchInit (patchInit (baseTable 0 1 ["x"] ["y"]) 0) 1) (0 + 4) 1
      = [IEvent.setFields 0, IEvent.setFields 1, IEvent.verify (["x"] ++ ["y"])] ∧
    runInit (patchInit (patchInit (baseTable 0 1 ["x"] ["y"]) 0) 1) 1 (0 + 2)
      (((patchInit (patchInit (baseTable 0 1 ["x"] ["y"]) 0) 1) 0).curInit)
      = [IEvent.setFields 0] :=
  dataclass_verify_once 0 0 1 ["x"] ["y"] (by decide)

/-- Claim C4: applying `jaxtyped` to a plain function that has already
been wrapped by `jaxtyped` returns the identical object with the world
unchanged.  The first conjunct says wrapping a function is `wrapFunc`;
the second says re-applying `jaxtyped` to the function it produced is
the identity on both the object and the state; the third makes explicit
that, consequently, an invocation of the twice-wrapped function has
exactly the same event trace — the same number of binding-context
pushes and pops — as an invocation of the once-wrapped one. -/
theorem jaxtyped_rewrap_id (st : JaxState) (id : Nat) :
    jaxtyped st (PyVal.func id)
      = (Except.ok (PyVal.func (wrapFunc st id).1), (wrapFunc st id).2) ∧
    jaxtyped (wrapFunc st id).2 (PyVal.func (wrapFunc st id).1)
      = (Except.ok (PyVal.func (wrapFunc st id).1), (wrapFunc st id).2) ∧
    (∀ fuel : Nat,
      callEvents ((jaxtyped (wrapFunc st id).2 (PyVal.func (wrapFunc st id).1)).2).fnTable
          fuel (wrapFunc st id).1
        = callEvents ((wrapFunc st id).2).fnTable fuel (wrapFunc st id).1) := by
  have hsecond : jaxtyped (wrapFunc st id).2 (PyVal.func (wrapFunc st id).1)
      = (Except.ok (PyVal.func (wrapFunc st id).1), (wrapFunc st id).2) := by
    by_cases h : id ∈ st.jaxtypedFns
    · simp [jaxtyped, wrapFunc, h]
    · simp [jaxtyped, wrapFunc, h]
  refine ⟨rfl, hsecond, fun fuel => ?_⟩
  rw [hsecond]

/-- Claim C7: applying `jaxtyped` to a class that is not a dataclass
raises `ValueError` at decoration time and returns the world exactly as
it was — in particular the `_jaxtyped_fns` registry and the thread's
scope stack are untouched, and nothing has been invoked. -/
theorem jaxtyped_plain_class_error (st : JaxState) (c : Nat)
    (h : (st.classTable c).isDataclass = false) :
    jaxtyped st (PyVal.cls c) = (Except.error PyErr.valueError, st) := by
  simp [jaxtyped, h]

theorem jaxtyped_plain_class_error_witness :
    jaxtyped st0 (PyVal.cls 0) = (Except.error PyErr.valueError, st0) :=
  jaxtyped_plain_class_error st0 0 rfl

/-- Claim C2, amended: applying `jaxtyped` to a dataclass returns the
very same class object with only its `__init__` attribute replaced — by
the scope-wrapping closure `wrapped_fn` around the old `__init__`, with
no field verification composed (that is `_jaxtyped_typechecker`'s job):
the class's other attributes and its dataclass flag are unchanged, the
thread's scope stack is untouched, and one top-level invocation of the
new `__init__` is exactly a context push, the original body, and a
context pop. -/
theorem jaxtyped_dataclass_inplace (st : JaxState) (c tag : Nat)
    (h1 : (st.classTable c).isDataclass = true)
    (h2 : (st.classTable c).initFn ∉ st.jaxtypedFns)
    (h3 : st.fnTable (st.classTable c).initFn = FnDesc.plain tag)
    (h4 : (st.classTable c).initFn ≠ st.nextId) :
    (jaxtyped st (PyVal.cls c)).1 = Except.ok (PyVal.cls c) ∧
    (((jaxtyped st (PyVal.cls c)).2).classTable c).initFn = st.nextId ∧
    (((jaxtyped st (PyVal.cls c)).2).classTable c).attrs = (st.classTable c).attrs ∧
    (((jaxtyped st (PyVal.cls c)).2).classTable c).isDataclass = true ∧
    ((jaxtyped st (PyVal.cls c)).2).memoStack = st.memoStack ∧
    ((jaxtyped st (PyVal.cls c)).2).fnTable st.nextId
      = FnDesc.wrappedFn (st.classTable c).initFn ∧
    callEvents ((jaxtyped st (PyVal.cls c)).2).fnTable 2
        (((jaxtyped st (PyVal.cls c)).2).classTable c).initFn
      = [CEvent.push, CEvent.body tag, CEvent.pop] := by
  simp only [jaxtyped, wrapFunc, h1, if_true, if_neg h2]
  refine ⟨by simp, by simp, by simp [h1], by simp [h1], by simp, by simp, ?_⟩
  simp [callEvents, h3, h4]

theorem jaxtyped_dataclass_inplace_witness :
    (jaxtyped st1 (PyVal.cls 0)).1 = Except.ok (PyVal.cls 0) ∧
    (((jaxtyped st1 (PyVal.cls 0)).2).classTable 0).initFn = st1.nextId ∧
    (((jaxtyped st1 (PyVal.cls 0)).2).classTable 0).attrs = (st1.classTable 0).attrs ∧
    (((jaxtyped st1 (PyVal.cls 0)).2).classTable 0).isDataclass = true ∧
    ((jaxtyped st1 (PyVal.cls 0)).2).memoStack = st1.memoStack ∧
    ((jaxtyped st1 (PyVal.cls 0)).2).fnTable st1.nextId
      = FnDesc.wrappedFn (st1.classTable 0).initFn ∧
    callEvents ((jaxtyped st1 (PyVal.cls 0)).2).fnTable 2
        (((jaxtyped st1 (PyVal.cls 0)).2).classTable 0).initFn
      = [CEvent.push, CEvent.body 7, CEvent.pop] :=
  jaxtyped_dataclass_inplace st1 0 7 rfl (by decide) rfl (by decide)

/-- Claim C2, counterexample to the claim as stated: in the concrete
world `st1`, applying `jaxtyped` to dataclass `0` yields an initialiser
whose complete top-level invocation trace is a context push, the
original body, and a context pop — it contains no field-verification
event at all, so the new initialiser is not "the wrapped initialiser
composed with field verification". -/
theorem jaxtyped_dataclass_no_field_verification :
    callEvents ((jaxtyped st1 (PyVal.cls 0)).2).fnTable 3
        (((jaxtyped st1 (PyVal.cls 0)).2).classTable 0).initFn
      = [CEvent.push, CEvent.body 7, CEvent.pop] ∧
    CEvent.verify 0 ∉ callEvents ((jaxtyped st1 (PyVal.cls 0)).2).fnTable 3
        (((jaxtyped st1 (PyVal.cls 0)).2).classTable 0).initFn := by
  constructor
  · decide
  · decide

/-- Claim C10: the record-type decorator produced by
`_jaxtyped_typechecker`, applied to a class that is not a dataclass,
returns that class unchanged — same class object, same world, no
initialiser replacement and no error (the function is total) — unlike
`jaxtyped` itself, which raises `ValueError` on the same class. -/
theorem typecheckerWrapper_plain_class (st : JaxState) (c : Nat)
    (h : (st.classTable c).isDataclass = false) :
    typecheckerWrapper st c = (c, st) ∧
    (jaxtyped st (PyVal.cls c)).1 = Except.error PyErr.valueError := by
  constructor
  · simp [typecheckerWrapper, h]
  · simp [jaxtyped, h]

theorem typecheckerWrapper_plain_class_witness :
    typecheckerWrapper st0 1 = (1, st0) ∧
    (jaxtyped st0 (PyVal.cls 1)).1 = Except.error PyErr.valueError :=
  typecheckerWrapper_plain_class st0 1 rfl

theorem checkFields_true_eq (self : DcInstance) :
    ∀ names : List String,
      (∀ name ∈ names, (resolveAnn self.mro name).isSome = true) →
      checkFields (fun _ _ _ => true) self names
        = Except.ok (names.filterMap (fun name =>
            match resolveAnn self.mro name with
            | none => none
            | some ann =>
                if isStrAnn ann then none
                else if isTypeSingleStr ann then none
                else (lookupVal self.values name).map (fun v => (name, ann, v)))) := by
  intro names
  induction names with
  | nil => intro _; rfl
  | cons name rest ih =>
      intro h
      have hname : (resolveAnn self.mro name).isSome = true :=
        h name (List.mem_cons_self name rest)
      have hrest : ∀ n ∈ rest, (resolveAnn self.mro n).isSome = true :=
        fun n hn => h n (List.mem_cons_of_mem name hn)
      cases hr : resolveAnn self.mro name with
      | none => rw [hr] at hname; simp at hname
      | some ann =>
          cases hs : isStrAnn ann with
          | true => simp [checkFields, hr, hs, ih hrest]
          | false =>
              cases ht : isTypeSingleStr ann with
              | true => simp [checkFields, hr, hs, ht, ih hrest]
              | false =>
                  cases hv : lookupVal self.values name with
                  | none => simp [checkFields, hr, hs, ht, hv, ih hrest]
                  | some v => simp [checkFields, hr, hs, ht, hv, ih hrest]

/-- Claim C8: with a typechecker capability that accepts everything,
field verification over an instance whose fields all resolve returns
exactly one typechecker invocation `(name, annotation, value)` for each
field whose resolved annotation is neither a string nor a `type[...]`
with exactly one string argument (and whose value is bound), and no
invocation at all — a silent skip — for the string-annotated and
single-string-`type[...]`-annotated fields. -/
theorem checkDataclassFields_skip_rules (self : DcInstance)
    (h : ∀ name ∈ self.fields, (resolveAnn self.mro name).isSome = true) :
    checkDataclassFields (fun _ _ _ => true) self
      = Except.ok (self.fields.filterMap (fun name =>
          match resolveAnn self.mro name with
          | none => none
          | some ann =>
              if isStrAnn ann then none
              else if isTypeSingleStr ann then none
              else (lookupVal self.values name).map (fun v => (name, ann, v)))) :=
  checkFields_true_eq self self.fields h

theorem checkDataclassFields_skip_rules_witness :
    checkDataclassFields (fun _ _ _ => true) dcSample
      = Except.ok (dcSample.fields.filterMap (fun name =>
          match resolveAnn dcSample.mro name with
          | none => none
          | some ann =>
              if isStrAnn ann then none
              else if isTypeSingleStr ann then none
              else (lookupVal dcSample.values name).map (fun v => (name, ann, v)))) :=
  checkDataclassFields_skip_rules dcSample (by decide)

/-- Claim C9: a declared field whose annotation is checkable but for
which the instance has no value bound (`getattr` raises
`AttributeError`) is silently skipped: the field loop over that field
equals the loop over the remaining fields, with no typechecker
invocation and no missing-value error, for every typechecker
capability. -/
theorem unset_field_skipped (tc : String → Ann → Nat → Bool) (self : DcInstance)
    (name : String) (rest : List String) (ann : Ann)
    (h1 : resolveAnn self.mro name = some ann)
    (h2 : isStrAnn ann = false)
    (h3 : isTypeSingleStr ann = false)
    (h4 : lookupVal self.values name = none) :
    checkFields tc self (name :: rest) = checkFields tc self rest := by
  simp [checkFields, h1, h2, h3, h4]

theorem unset_field_skipped_witness :
    checkFields (fun _ _ _ => true) dcSample2 ("c" :: ["d"])
      = checkFields (fun _ _ _ => true) dcSample2 ["d"] :=
  unset_field_skipped (fun _ _ _ => true) dcSample2 "c" ["d"] (Ann.other 3)
    (by decide) rfl rfl (by decide)
